import Mathlib

/-!
Verification of the argument-compilation and output-resolution layer of the
nipype ANTs segmentation wrappers (`nipype/interfaces/ants/segmentation.py`).

The Python code is shallowly embedded: each overridden method
(`Atropos._format_arg`, `Atropos._list_outputs`,
`N4BiasFieldCorrection._parse_inputs` / `_list_outputs`,
`CorticalThickness._list_outputs`, `JointFusion._list_outputs`,
`BrainExtraction._run_interface`) becomes a pure Lean function over a record
of field values; the filesystem is a list of existing paths; fallible
compilation returns `Except`.  Numeric scalar fields that the wrappers render
with C-style `%g` are modelled as integers: every concrete value exercised by
the properties below is integral, and `%g` is embedded faithfully on integers
(six significant digits, scientific notation above that, half-even rounding).
-/

namespace Nipype

/-- Python `str(n)` / C `%d` rendering of an integer. -/
def fmtD (n : Int) : String := toString n

/-- C `%d` applied to a Python bool (rendered through its int value). -/
def fmtDBool (b : Bool) : String := if b then "1" else "0"

/-- C `%02d`: decimal, zero-padded on the left to width 2 (values here are ≥ 0). -/
def fmt02d (n : Nat) : String :=
  let s := toString n
  if s.length < 2 then "0" ++ s else s

/-- Drop trailing `'0'` characters. -/
def stripTrailingZeros (s : List Char) : List Char :=
  (s.reverse.dropWhile (fun c => c = '0')).reverse

/-- C `%g` on a nonnegative integer value: plain decimal up to six significant
digits, otherwise scientific notation with a six-digit mantissa rounded
half-to-even, trailing zeros stripped, and a two-digit exponent. -/
def fmtGNat (m : Nat) : String :=
  if m = 0 then "0"
  else
    let d := (toString m).length
    if d ≤ 6 then toString m
    else
      let pow := 10 ^ (d - 6)
      let q := m / pow
      let r := m % pow
      let qr :=
        if 2 * r > pow then q + 1
        else if 2 * r < pow then q
        else if q % 2 = 1 then q + 1 else q
      let me := if qr = 10 ^ 6 then (10 ^ 5, d) else (qr, d - 1)
      let s := toString me.1
      let tail := stripTrailingZeros (s.drop 1).data
      let mantStr := if tail.isEmpty then s.take 1 else s.take 1 ++ "." ++ String.mk tail
      mantStr ++ "e+" ++ (if me.2 < 10 then "0" ++ toString me.2 else toString me.2)

/-- C `%g` on an integer value. -/
def fmtG (n : Int) : String :=
  if n < 0 then "-" ++ fmtGNat n.natAbs else fmtGNat n.natAbs

/-- Substring containment over character lists (Python `pat in s`). -/
def listContainsSub (pat : List Char) : List Char → Bool
  | [] => pat.isEmpty
  | c :: t => pat.isPrefixOf (c :: t) || listContainsSub pat t

/-- Python `pat in s` for strings. -/
def containsSub (s pat : String) : Bool := listContainsSub pat.data s.data

/-- Left-to-right, non-overlapping replacement of `pat` by `rep` over
character lists, driven by a fuel argument (one unit per step, so the input's
length suffices). -/
def replaceAux (pat rep : List Char) : Nat → List Char → List Char
  | _, [] => []
  | 0, s => s
  | f + 1, c :: t =>
    if pat.isPrefixOf (c :: t) ∧ pat ≠ [] then
      rep ++ replaceAux pat rep f (List.drop (pat.length - 1) t)
    else c :: replaceAux pat rep f t

/-- Python `s.replace(pat, rep)`. -/
def strReplace (s pat rep : String) : String :=
  String.mk (replaceAux pat.data rep.data s.data.length s.data)

/-- Python `pattern % n` for the templates used here, which hold a single
`%02d` placeholder: the placeholder is replaced by the zero-padded index. -/
def pctSubst02d (template : String) (n : Nat) : String :=
  strReplace template "%02d" (fmt02d n)

/-- The length of the run of non-`/` characters at the end of  `s`. -/
def tailRunLen (s : List Char) : Nat :=
  (s.reverse.takeWhile (fun c => ¬ c = '/')).length

/-- `os.path.basename`: the component after the last `/`. -/
def basename (s : String) : String :=
  String.mk (s.data.drop (s.data.length - tailRunLen s.data))

/-- `os.path.dirname`: everything up to the last `/`, with trailing slashes
stripped unless the result is all slashes (posixpath behaviour). -/
def dirname (s : String) : String :=
  let head := s.data.take (s.data.length - tailRunLen s.data)
  if head.isEmpty ∨ head.all (fun c => c = '/') then String.mk head
  else String.mk ((head.reverse.dropWhile (fun c => c = '/')).reverse)

/-- `os.path.join(cwd, name)` for a single relative or absolute component. -/
def pathJoin (cwd name : String) : String :=
  match name.data with
  | '/' :: _ => name
  | _ => cwd ++ "/" ++ name

/-- `os.path.abspath` relative to the working directory (no `..` in the names
produced by these wrappers, so normalisation is the identity). -/
def abspath (cwd name : String) : String := pathJoin cwd name

/-- Python `sorted(set(xs))` on integers: distinct values in ascending order. -/
def sortedDedup (xs : List Int) : List Int :=
  (xs.dedup).insertionSort (· ≤ ·)

/-- Errors raised by the argument compilers before any command line is produced. -/
inductive CompileError where
  | valueError (msg : String)
  | fileNotFoundError (msg : String)
  deriving DecidableEq, Repr

/-! ## Atropos (`Atropos._format_arg`, `Atropos._list_outputs`) -/

/-- The `initialization` enum of `AtroposInputSpec`. -/
inductive Initialization where
  | Random
  | Otsu
  | KMeans
  | PriorProbabilityImages
  | PriorLabelImage
  deriving DecidableEq, Repr

/-- The string value of the `initialization` trait. -/
def Initialization.name : Initialization → String
  | .Random => "Random"
  | .Otsu => "Otsu"
  | .KMeans => "KMeans"
  | .PriorProbabilityImages => "PriorProbabilityImages"
  | .PriorLabelImage => "PriorLabelImage"

/-- The fields of `AtroposInputSpec` consulted by the overridden
`_format_arg` and `_list_outputs`.  `Option` marks traits that may be unset
(`isdefined` is `Option.isSome`). -/
structure AtroposInputs where
  numberOfTissueClasses : Int
  initialization : Initialization
  kmeansInitCenters : Option (List Int) := none
  priorImage : Option String := none
  priorWeighting : Option Int := none
  priorProbabilityThreshold : Option Int := none
  mrfSmoothingFactor : Option Int := none
  mrfRadius : Option (List Int) := none
  icmUseSynchronousUpdate : Option Bool := none
  maximumNumberOfIcmTerations : Option Int := none
  nIterations : Option Int := none
  convergenceThreshold : Option Int := none
  posteriorFormulation : Option String := none
  useMixtureModelProportions : Option Bool := none
  savePosteriors : Option Bool := none
  outputPosteriorsNameTemplate : String := "POSTERIOR_%02d.nii.gz"

/-- Error message of the KMeans center-count check. -/
def kmeansCountMsg : String :=
  "KMeans initialization with initial cluster centers requires the number of centers to match number_of_tissue_classes"

/-- First stage of `Atropos._format_arg` for `initialization`: the KMeans
branch.  `sorted(set(...))` deduplicates and sorts the centers before the
count check and before rendering each with `%g`. -/
def kmeansBrackets (inp : AtroposInputs) (brackets : List String) :
    Except CompileError (List String) :=
  match inp.initialization, inp.kmeansInitCenters with
  | .KMeans, some cs =>
    let centers := sortedDedup cs
    if (centers.length : Int) ≠ inp.numberOfTissueClasses then
      .error (.valueError kmeansCountMsg)
    else .ok (brackets ++ centers.map fmtG)
  | _, _ => .ok brackets

/-- Second stage of `Atropos._format_arg` for `initialization`: the
`PriorProbabilityImages` / `PriorLabelImage` branch, including the `%02d`
pattern expansion over class indices `1..n` and the on-disk existence check
against the filesystem `fs`. -/
def priorBrackets (inp : AtroposInputs) (fs : List String) (brackets : List String) :
    Except CompileError (List String) :=
  if inp.initialization = .PriorProbabilityImages ∨ inp.initialization = .PriorLabelImage then
    match inp.priorImage, inp.priorWeighting with
    | some priorImage, some priorWeighting =>
      match (if containsSub priorImage "%02d" then
              if inp.initialization = .PriorLabelImage then
                Except.error (CompileError.valueError
                  "'PriorLabelImage' initialization does not accept patterns for prior_image.")
              else
                Except.ok ((List.range inp.numberOfTissueClasses.toNat).map
                  (fun i => pctSubst02d priorImage (i + 1)))
            else Except.ok [priorImage]) with
      | .error e => .error e
      | .ok priorsPaths =>
        if ¬ (priorsPaths.all fun p => fs.contains p) then
          .error (.fileNotFoundError
            ("One or more prior images do not exist: " ++
              String.intercalate ", " priorsPaths ++ "."))
        else
          let brackets := brackets ++ [priorImage, fmtG priorWeighting]
          if inp.initialization = .PriorProbabilityImages then
            match inp.priorProbabilityThreshold with
            | some th => .ok (brackets ++ [fmtG th])
            | none => .ok brackets
          else .ok brackets
    | _, _ =>
      .error (.valueError
        ("'" ++ inp.initialization.name ++
          "' initialization requires setting prior_image and prior_weighting"))
  else .ok brackets

/-- `Atropos._format_arg` for `opt == "initialization"`. -/
def formatInitialization (inp : AtroposInputs) (fs : List String) :
    Except CompileError String :=
  match kmeansBrackets inp [fmtD inp.numberOfTissueClasses] with
  | .error e => .error e
  | .ok b1 =>
    match priorBrackets inp fs b1 with
    | .error e => .error e
    | .ok b2 =>
      .ok ("--initialization " ++ inp.initialization.name ++ "[" ++
        String.intercalate "," b2 ++ "]")

/-- `ANTSCommand._format_xarray`, as exhibited by the docstring examples in
the source (`--mrf [0.2,1x1x1]`): joins the elements with `x`. -/
def formatXarray (xs : List String) : String := String.intercalate "x" xs

/-- `Atropos._format_arg` for `opt == "mrf_smoothing_factor"`. -/
def formatMrfSmoothingFactor (inp : AtroposInputs) (val : Int) : String :=
  "--mrf [" ++ fmtG val ++
    (match inp.mrfRadius with
     | some r => "," ++ formatXarray (r.map toString)
     | none => "") ++ "]"

/-- `Atropos._format_arg` for `opt == "icm_use_synchronous_update"`. -/
def formatIcmUseSynchronousUpdate (inp : AtroposInputs) (val : Bool) : String :=
  "--icm [" ++ fmtDBool val ++
    (match inp.maximumNumberOfIcmTerations with
     | some m => "," ++ fmtG m
     | none => "") ++ "]"

/-- `Atropos._format_arg` for `opt == "n_iterations"`. -/
def formatNIterations (inp : AtroposInputs) (val : Int) : String :=
  "--convergence [" ++ fmtD val ++
    (match inp.convergenceThreshold with
     | some c => "," ++ fmtG c
     | none => "") ++ "]"

/-- `Atropos._format_arg` for `opt == "posterior_formulation"`. -/
def formatPosteriorFormulation (inp : AtroposInputs) (val : String) : String :=
  "--posterior-formulation " ++ val ++
    (match inp.useMixtureModelProportions with
     | some b => "[" ++ fmtDBool b ++ "]"
     | none => "")

/-- `Atropos._format_arg` for `opt == "out_classified_image_name"`: the
template is appended whenever `save_posteriors` is defined. -/
def formatOutClassifiedImageName (inp : AtroposInputs) (val : String) : String :=
  "--output [" ++ val ++
    (match inp.savePosteriors with
     | some _ => "," ++ inp.outputPosteriorsNameTemplate
     | none => "") ++ "]"

/-- The option names special-cased by `Atropos._format_arg` (the remaining
options fall through to the generic base-class rendering). -/
inductive AtroposOpt where
  | initialization
  | mrfSmoothingFactor
  | icmUseSynchronousUpdate
  | nIterations
  | posteriorFormulation
  | outClassifiedImageName
  deriving DecidableEq, Repr

/-- `Atropos._format_arg` as one dispatch over the special-cased options.
Each option is rendered from its own (set) field value, mirroring the `val`
argument of the Python method; `fs` is the set of paths existing on disk. -/
def atroposFormatArg (inp : AtroposInputs) (fs : List String)
    (outClassifiedName : String) : AtroposOpt → Except CompileError String
  | .initialization => formatInitialization inp fs
  | .mrfSmoothingFactor =>
    .ok (formatMrfSmoothingFactor inp (inp.mrfSmoothingFactor.getD 0))
  | .icmUseSynchronousUpdate =>
    .ok (formatIcmUseSynchronousUpdate inp (inp.icmUseSynchronousUpdate.getD false))
  | .nIterations => .ok (formatNIterations inp (inp.nIterations.getD 0))
  | .posteriorFormulation =>
    .ok (formatPosteriorFormulation inp (inp.posteriorFormulation.getD ""))
  | .outClassifiedImageName => .ok (formatOutClassifiedImageName inp outClassifiedName)

/-- The `posteriors` entry of `Atropos._list_outputs`: defined only when
`save_posteriors` is set and true; one absolute path per class, indices
`1..number_of_tissue_classes` substituted into the name template. -/
def atroposPosteriors (inp : AtroposInputs) (cwd : String) : Option (List String) :=
  if inp.savePosteriors = some true then
    some ((List.range inp.numberOfTissueClasses.toNat).map
      (fun i => abspath cwd (pctSubst02d inp.outputPosteriorsNameTemplate (i + 1))))
  else none

/-! ## CorticalThickness (`CorticalThickness._list_outputs`) -/

/-- The fields of `CorticalThicknessInputSpec` consulted by `_list_outputs`. -/
structure CorticalThicknessInputs where
  segmentationPriors : List String
  outPrefix : String := "antsCT_"
  imageSuffix : String := "nii.gz"

/-- The `BrainSegmentationPosteriors` entry of
`CorticalThickness._list_outputs`: one path per segmentation prior, joined
onto the working directory, with the 1-based index `%02d`-substituted. -/
def corticalThicknessPosteriors (inp : CorticalThicknessInputs) (cwd : String) :
    List String :=
  (List.range inp.segmentationPriors.length).map fun i =>
    pathJoin cwd
      (inp.outPrefix ++ "BrainSegmentationPosteriors" ++ fmt02d (i + 1) ++ "." ++
        inp.imageSuffix)

/-! ## N4BiasFieldCorrection (`_parse_inputs` / `_list_outputs`) -/

/-- Modelled from the spec: `split_filename` from `nipype.utils.filemanip` is
not part of the source excerpt.  The spec says the bias filename is derived by
appending a fixed suffix to the input image's base name; the suffix goes
before the extension, with the compound `.nii.gz` extension kept whole. -/
def splitFilename (fname : String) : String × String :=
  if ".nii.gz".data.reverse.isPrefixOf fname.data.reverse then
    (String.mk (fname.data.take (fname.data.length - ".nii.gz".length)), ".nii.gz")
  else
    let extLen := (fname.data.reverse.takeWhile (fun c => ¬ c = '.')).length
    if extLen = fname.data.length then (fname, "")
    else
      (String.mk (fname.data.take (fname.data.length - extLen - 1)),
       String.mk (fname.data.drop (fname.data.length - extLen - 1)))

/-- Modelled from the spec: `fname_presuffix` from `nipype.utils.filemanip`
is not part of the source excerpt; per the spec it appends the given suffix to
the file's base name, before its extension. -/
def fnamePresuffix (fname suffix : String) : String :=
  let se := splitFilename fname
  se.1 ++ suffix ++ se.2

/-- The fields of `N4BiasFieldCorrectionInputSpec` consulted by
`_parse_inputs` and `_list_outputs` for the bias image. -/
structure N4Inputs where
  inputImage : String
  saveBias : Bool := false
  biasImage : Option String := none

/-- `N4BiasFieldCorrection._parse_inputs`: the derived `_out_bias_file`.
When `save_bias` is set or an explicit `bias_image` is given, the bias file is
the explicit name or, failing that, the input image's base name with the
`_bias` suffix appended. -/
def n4OutBiasFile (inp : N4Inputs) : Option String :=
  if inp.saveBias ∨ inp.biasImage.isSome then
    some (match inp.biasImage with
      | some b => b
      | none => fnamePresuffix (basename inp.inputImage) "_bias")
  else none

/-- The `bias_image` entry of `N4BiasFieldCorrection._list_outputs`: the
derived bias file made absolute, when one was derived. -/
def n4BiasImageOutput (inp : N4Inputs) (cwd : String) : Option String :=
  (n4OutBiasFile inp).map (abspath cwd)

/-! ## JointFusion (`JointFusion._list_outputs`) -/

/-- Shell-glob matching over character lists: `*` matches any run of
characters, `?` any single character, anything else itself (the patterns the
wrapper builds use only `*`). -/
def globMatchAux : Nat → List Char → List Char → Bool
  | _, [], s => s.isEmpty
  | 0, _ :: _, _ => false
  | f + 1, '*' :: pt, s =>
    globMatchAux f pt s ||
      (match s with
       | [] => false
       | _ :: st => globMatchAux f ('*' :: pt) st)
  | f + 1, '?' :: pt, s =>
    (match s with
     | [] => false
     | _ :: st => globMatchAux f pt st)
  | f + 1, c :: pt, s =>
    (match s with
     | [] => false
     | d :: st => c = d && globMatchAux f pt st)

/-- Shell-glob matching, with fuel bounding the recursion; every step strips
at least one character off the pattern or the string, so the combined length
is enough fuel. -/
def globMatchChars (p s : List Char) : Bool :=
  globMatchAux (p.length + s.length + 1) p s

/-- `glob.glob`: the existing paths that match the pattern. -/
def globPaths (fs : List String) (pattern : String) : List String :=
  fs.filter fun p => globMatchChars pattern.data p.data

/-- The glob-based output name formats of `JointFusionInputSpec`. -/
structure JointFusionInputs where
  outLabelFusion : Option String := none
  outIntensityFusionNameFormat : Option String := none
  outLabelPostProbNameFormat : Option String := none
  outAtlasVotingWeightNameFormat : Option String := none

/-- One glob-based entry of `JointFusion._list_outputs`: when the name format
is defined, `%d` is replaced by `*`, the pattern made absolute, and the
existing matches returned (possibly none). -/
def jointFusionGlobOutput (fmt : Option String) (fs : List String) (cwd : String) :
    Option (List String) :=
  fmt.map fun f => globPaths fs (abspath cwd (strReplace f "%d" "*"))

/-- The three glob-based entries of `JointFusion._list_outputs`
(`out_intensity_fusion`, `out_label_post_prob`, `out_atlas_voting_weight`). -/
def jointFusionGlobOutputs (inp : JointFusionInputs) (fs : List String) (cwd : String) :
    Option (List String) × Option (List String) × Option (List String) :=
  (jointFusionGlobOutput inp.outIntensityFusionNameFormat fs cwd,
   jointFusionGlobOutput inp.outLabelPostProbNameFormat fs cwd,
   jointFusionGlobOutput inp.outAtlasVotingWeightNameFormat fs cwd)

/-! ## BrainExtraction (`BrainExtraction._run_interface`) -/

/-- Python's `a or b` over optional strings: an empty string is falsy and
falls through to `b`. -/
def pyOrStr (a b : Option String) : Option String :=
  match a with
  | some s => if s ≠ "" then some s else b
  | none => b

/-- Look up a key in an association-list environment. -/
def envGet (env : List (String × String)) (key : String) : Option String :=
  (env.find? (fun kv => kv.1 = key)).map (·.2)

/-- Set a key in an association-list environment. -/
def envSet (env : List (String × String)) (key val : String) :
    List (String × String) :=
  (env.filter fun kv => kv.1 ≠ key) ++ [(key, val)]

/-- `BrainExtraction._run_interface` up to the spawn of the wrapped script:
resolve `ANTSPATH` from the interface environ, then the process environment,
then — modelled from the spec: `which` from `nipype.utils.filemanip` is not
part of the source excerpt; per the spec the variable may be inferred from
the tool's own install layout — from the install location of the
`antsRegistration` executable (its directory).  When none of these yields a
value the run fails with a `RuntimeError` before the script is invoked. -/
def resolveAntspath (ifaceEnv procEnv : List (String × String))
    (whichAntsRegistration : Option String) (hostname : String) :
    Except String String :=
  match pyOrStr (envGet ifaceEnv "ANTSPATH") (envGet procEnv "ANTSPATH") with
  | some p => .ok p
  | none =>
    match whichAntsRegistration with
    | some cmdPath => .ok (dirname cmdPath)
    | none =>
      .error ("The environment variable $ANTSPATH is not defined in host \x22" ++
        hostname ++ "\x22, and Nipype could not determine it automatically.")

/-- The subprocess environment `BrainExtraction._run_interface` hands to the
wrapped script: the runtime environment with `ANTSPATH` set to the resolved
value, or the hard failure when resolution fails. -/
def brainExtractionRuntimeEnviron (ifaceEnv procEnv runtimeEnv : List (String × String))
    (whichAntsRegistration : Option String) (hostname : String) :
    Except String (List (String × String)) :=
  match resolveAntspath ifaceEnv procEnv whichAntsRegistration hostname with
  | .error e => .error e
  | .ok p => .ok (envSet runtimeEnv "ANTSPATH" p)

/-- Compiling a sequence of special-cased options into their tokens. -/
def atroposCompile (inp : AtroposInputs) (fs : List String)
    (outClassifiedName : String) (opts : List AtroposOpt) :
    Except CompileError (List String) :=
  opts.mapM (atroposFormatArg inp fs outClassifiedName)

/-- Setting a key makes it visible to lookup. -/
theorem envGet_envSet (env : List (String × String)) (k v : String) :
    envGet (envSet env k v) k = some v := by
  have hnone : (env.filter fun kv => kv.1 ≠ k).find? (fun kv => kv.1 = k) = none := by
    rw [List.find?_eq_none]
    intro x hx
    simp only [List.mem_filter, decide_not] at hx
    simpa using hx.2
  simp [envGet, envSet, List.find?_append, hnone]

/-! ## Theorems -/

/-- C1: with `number_of_tissue_classes = 2`, initialization `KMeans` and a
list of 3 (distinct) centers supplied, compiling the initialization argument
fails with the count-mismatch `ValueError` before any token is produced. -/
theorem kmeans_center_count_mismatch (cs : List Int) (fs : List String)
    (hnd : cs.Nodup) (hlen : cs.length = 3) :
    formatInitialization
      { numberOfTissueClasses := 2, initialization := .KMeans,
        kmeansInitCenters := some cs } fs =
      .error (.valueError kmeansCountMsg) := by
  have h1 : (sortedDedup cs).length = 3 := by
    simp [sortedDedup, List.length_insertionSort, List.dedup_eq_self.mpr hnd, hlen]
  simp [formatInitialization, kmeansBrackets, h1]

/-- Witness for C1 at the concrete centers `[100, 150, 200]`. -/
theorem kmeans_center_count_mismatch_spot :
    formatInitialization
      { numberOfTissueClasses := 2, initialization := .KMeans,
        kmeansInitCenters := some [100, 150, 200] } [] =
      .error (.valueError kmeansCountMsg) :=
  kmeans_center_count_mismatch [100, 150, 200] [] (by decide) (by decide)

/-- C2: with `number_of_tissue_classes = 2`, initialization `KMeans` and
centers `[100, 200]`, the compiled token is
`--initialization KMeans[2,100,200]`, whatever the filesystem holds. -/
theorem kmeans_two_centers_token (fs : List String) :
    formatInitialization
      { numberOfTissueClasses := 2, initialization := .KMeans,
        kmeansInitCenters := some [100, 200] } fs =
      .ok "--initialization KMeans[2,100,200]" := rfl

/-- C9: duplicate KMeans centers are removed before the count check and
before rendering — compiling with centers `cs` always equals compiling with
`cs.dedup` — so `[100, 100, 200]` with class count 2 compiles successfully to
`KMeans[2,100,200]` instead of failing. -/
theorem kmeans_duplicate_centers_dedup :
    (∀ (n : Int) (cs : List Int) (fs : List String),
      formatInitialization
        { numberOfTissueClasses := n, initialization := .KMeans,
          kmeansInitCenters := some cs } fs =
        formatInitialization
          { numberOfTissueClasses := n, initialization := .KMeans,
            kmeansInitCenters := some cs.dedup } fs) ∧
    formatInitialization
      { numberOfTissueClasses := 2, initialization := .KMeans,
        kmeansInitCenters := some [100, 100, 200] } [] =
      .ok "--initialization KMeans[2,100,200]" := by
  refine ⟨fun n cs fs => ?_, rfl⟩
  have h : sortedDedup cs.dedup = sortedDedup cs := by
    simp [sortedDedup, List.dedup_idem]
  simp [formatInitialization, kmeansBrackets, priorBrackets, h]

/-- C10: `PriorLabelImage` initialization rejects `%02d` patterns in
`prior_image` with a `ValueError`; and for both prior-based initializations,
leaving `prior_image` or `prior_weighting` unset raises a `ValueError`. -/
theorem prior_label_image_value_errors :
    (∀ (n w : Int) (p : String) (th : Option Int) (fs : List String),
      containsSub p "%02d" = true →
      formatInitialization
        { numberOfTissueClasses := n, initialization := .PriorLabelImage,
          priorImage := some p, priorWeighting := some w,
          priorProbabilityThreshold := th } fs =
        .error (.valueError
          "'PriorLabelImage' initialization does not accept patterns for prior_image.")) ∧
    (∀ (init : Initialization) (n : Int) (pimg : Option String) (pwt : Option Int)
        (fs : List String),
      (init = .PriorLabelImage ∨ init = .PriorProbabilityImages) →
      (pimg = none ∨ pwt = none) →
      formatInitialization
        { numberOfTissueClasses := n, initialization := init,
          priorImage := pimg, priorWeighting := pwt } fs =
        .error (.valueError
          ("'" ++ init.name ++
            "' initialization requires setting prior_image and prior_weighting"))) := by
  constructor
  · intro n w p th fs hpat
    simp [formatInitialization, kmeansBrackets, priorBrackets, hpat]
  · intro init n pimg pwt fs hinit hunset
    rcases hinit with h | h <;> subst h <;> cases pimg <;> cases pwt <;>
        simp [formatInitialization, kmeansBrackets, priorBrackets] <;>
      rcases hunset with h | h <;> exact (Option.some_ne_none _ h).elim

/-- Witness for C10: a `PriorLabelImage` pattern and an unset `prior_image`. -/
theorem prior_label_image_value_errors_spot :
    formatInitialization
      { numberOfTissueClasses := 2, initialization := .PriorLabelImage,
        priorImage := some "seg%02d.nii.gz", priorWeighting := some 1 } [] =
      .error (.valueError
        "'PriorLabelImage' initialization does not accept patterns for prior_image.") ∧
    formatInitialization
      { numberOfTissueClasses := 2, initialization := .PriorProbabilityImages,
        priorImage := none, priorWeighting := some 1 } [] =
      .error (.valueError
        "'PriorProbabilityImages' initialization requires setting prior_image and prior_weighting") :=
  ⟨prior_label_image_value_errors.1 2 1 "seg%02d.nii.gz" none [] (by decide),
   prior_label_image_value_errors.2 .PriorProbabilityImages 2 none (some 1) []
     (Or.inr rfl) (Or.inl rfl)⟩

/-- C5: with `PriorProbabilityImages` initialization and a `%02d` pattern in
`prior_image`, the pattern is expanded to one path per class index `1..n`
and compilation fails with a `FileNotFoundError` naming the expanded paths
whenever one of them does not exist on disk. -/
theorem prior_pattern_missing_file (n w : Int) (p : String) (th : Option Int)
    (fs : List String)
    (hpat : containsSub p "%02d" = true)
    (hmiss : ∃ q ∈ (List.range n.toNat).map (fun i => pctSubst02d p (i + 1)),
      q ∉ fs) :
    formatInitialization
      { numberOfTissueClasses := n, initialization := .PriorProbabilityImages,
        priorImage := some p, priorWeighting := some w,
        priorProbabilityThreshold := th } fs =
      .error (.fileNotFoundError
        ("One or more prior images do not exist: " ++
          String.intercalate ", "
            ((List.range n.toNat).map (fun i => pctSubst02d p (i + 1))) ++ ".")) := by
  have hc : ¬ (((List.range n.toNat).map (fun i => pctSubst02d p (i + 1))).all
      (fun r => fs.contains r) = true) := by
    intro hAll
    rcases hmiss with ⟨q, hq, hnq⟩
    exact hnq (by simpa using (List.all_eq_true.mp hAll q hq))
  simp [formatInitialization, kmeansBrackets, priorBrackets, hpat]
  rw [if_neg hc]

/-- Witness for C5: two classes, pattern `prior%02d.nii`, only the first
expanded prior present on disk. -/
theorem prior_pattern_missing_file_spot :
    formatInitialization
      { numberOfTissueClasses := 2, initialization := .PriorProbabilityImages,
        priorImage := some "prior%02d.nii", priorWeighting := some 1 }
      ["prior01.nii"] =
      .error (.fileNotFoundError
        "One or more prior images do not exist: prior01.nii, prior02.nii.") :=
  prior_pattern_missing_file 2 1 "prior%02d.nii" none ["prior01.nii"]
    (by decide) (by decide)

/-- C3: enumerable multi-file outputs with declared count N resolve to
exactly N paths, obtained by substituting the 1-based indices `1..N`, in
order, into the declared name template: the Atropos posteriors (N =
`number_of_tissue_classes`, with `save_posteriors` set) and the
CorticalThickness segmentation posteriors (N = number of
`segmentation_priors`). -/
theorem enumerable_outputs_one_per_index (inp : AtroposInputs)
    (ct : CorticalThicknessInputs) (cwd : String)
    (hsave : inp.savePosteriors = some true) :
    (((atroposPosteriors inp cwd).getD []).length =
        inp.numberOfTissueClasses.toNat ∧
      ∀ i (h : i < ((atroposPosteriors inp cwd).getD []).length),
        ((atroposPosteriors inp cwd).getD []).get ⟨i, h⟩ =
          abspath cwd (pctSubst02d inp.outputPosteriorsNameTemplate (i + 1))) ∧
    ((corticalThicknessPosteriors ct cwd).length =
        ct.segmentationPriors.length ∧
      ∀ i (h : i < (corticalThicknessPosteriors ct cwd).length),
        (corticalThicknessPosteriors ct cwd).get ⟨i, h⟩ =
          pathJoin cwd
            (ct.outPrefix ++ "BrainSegmentationPosteriors" ++ fmt02d (i + 1) ++
              "." ++ ct.imageSuffix)) := by
  refine ⟨⟨?_, ?_⟩, ?_, ?_⟩ <;>
    simp [atroposPosteriors, corticalThicknessPosteriors, hsave]

/-- Witness for C3: two tissue classes and three segmentation priors. -/
theorem enumerable_outputs_one_per_index_spot :
    ((atroposPosteriors
        { numberOfTissueClasses := 2, initialization := .Random,
          savePosteriors := some true } "/wd").getD []).length = 2 ∧
    (corticalThicknessPosteriors
        { segmentationPriors := ["p1.nii", "p2.nii", "p3.nii"] } "/wd").length = 3 := by
  have h := enumerable_outputs_one_per_index
    { numberOfTissueClasses := 2, initialization := .Random,
      savePosteriors := some true }
    { segmentationPriors := ["p1.nii", "p2.nii", "p3.nii"] } "/wd" rfl
  exact ⟨h.1.1, h.2.1⟩

/-- C4: with `save_bias` true and no explicit `bias_image`, the derived bias
filename appends the `_bias` suffix to the input image's base name, and the
resolver reports that name made absolute as the `bias_image` output. -/
theorem n4_default_bias_image (inp : N4Inputs) (cwd : String)
    (hsave : inp.saveBias = true) (hbias : inp.biasImage = none) :
    n4BiasImageOutput inp cwd =
      some (abspath cwd (fnamePresuffix (basename inp.inputImage) "_bias")) := by
  simp [n4BiasImageOutput, n4OutBiasFile, hsave, hbias]

/-- Witness for C4: input `/data/structural.nii` resolves the bias image to
`/wd/structural_bias.nii`. -/
theorem n4_default_bias_image_spot :
    n4BiasImageOutput { inputImage := "/data/structural.nii", saveBias := true }
      "/wd" = some "/wd/structural_bias.nii" := by
  have h := n4_default_bias_image
    { inputImage := "/data/structural.nii", saveBias := true } "/wd" rfl rfl
  rw [h]
  rfl

/-- C6: when a glob-based JointFusion output name format is defined and no
existing file matches its pattern (`%d` widened to `*`), resolution returns
an empty list for that output instead of raising. -/
theorem jointfusion_glob_soft_empty (olf : Option String) (f1 f2 f3 : String)
    (fs : List String) (cwd : String)
    (h1 : ∀ q ∈ fs, globMatchChars (abspath cwd (strReplace f1 "%d" "*")).data q.data = false)
    (h2 : ∀ q ∈ fs, globMatchChars (abspath cwd (strReplace f2 "%d" "*")).data q.data = false)
    (h3 : ∀ q ∈ fs, globMatchChars (abspath cwd (strReplace f3 "%d" "*")).data q.data = false) :
    jointFusionGlobOutputs
      { outLabelFusion := olf, outIntensityFusionNameFormat := some f1,
        outLabelPostProbNameFormat := some f2,
        outAtlasVotingWeightNameFormat := some f3 } fs cwd =
      (some [], some [], some []) := by
  simp only [jointFusionGlobOutputs, jointFusionGlobOutput, globPaths, Option.map_some]
  refine Prod.ext ?_ (Prod.ext ?_ ?_) <;>
    simp [List.filter_eq_nil_iff] <;> assumption

/-- Witness for C6: a filesystem holding one non-matching file. -/
theorem jointfusion_glob_soft_empty_spot :
    jointFusionGlobOutputs
      { outLabelFusion := none,
        outIntensityFusionNameFormat := some "intensity_%d.nii.gz",
        outLabelPostProbNameFormat := some "post_prob_%d.nii.gz",
        outAtlasVotingWeightNameFormat := some "voting_weight_%d.nii.gz" }
      ["/wd/other.nii"] "/wd" = (some [], some [], some []) :=
  jointfusion_glob_soft_empty none "intensity_%d.nii.gz" "post_prob_%d.nii.gz"
    "voting_weight_%d.nii.gz" ["/wd/other.nii"] "/wd"
    (by decide) (by decide) (by decide)

/-- C7: when `ANTSPATH` is in neither the interface environ nor the process
environment and cannot be inferred from the install location of
`antsRegistration`, `BrainExtraction` fails with the `RuntimeError` before
the wrapped script runs; when it is inferable, the subprocess environment
carries `ANTSPATH` set to that location. -/
theorem brainextraction_antspath (ifaceEnv procEnv runtimeEnv : List (String × String))
    (hostname : String)
    (h1 : envGet ifaceEnv "ANTSPATH" = none)
    (h2 : envGet procEnv "ANTSPATH" = none) :
    brainExtractionRuntimeEnviron ifaceEnv procEnv runtimeEnv none hostname =
      .error ("The environment variable $ANTSPATH is not defined in host \x22" ++
        hostname ++ "\x22, and Nipype could not determine it automatically.") ∧
    ∀ cmdPath, ∃ env,
      brainExtractionRuntimeEnviron ifaceEnv procEnv runtimeEnv (some cmdPath)
          hostname = .ok env ∧
        envGet env "ANTSPATH" = some (dirname cmdPath) := by
  constructor
  · simp [brainExtractionRuntimeEnviron, resolveAntspath, pyOrStr, h1, h2]
  · intro cmdPath
    refine ⟨envSet runtimeEnv "ANTSPATH" (dirname cmdPath), ?_, ?_⟩
    · simp [brainExtractionRuntimeEnviron, resolveAntspath, pyOrStr, h1, h2]
    · exact envGet_envSet runtimeEnv "ANTSPATH" (dirname cmdPath)

/-- Witness for C7 with empty environments and a concrete install path. -/
theorem brainextraction_antspath_spot :
    brainExtractionRuntimeEnviron [] [] [] none "myhost" =
      .error ("The environment variable $ANTSPATH is not defined in host \x22" ++
        "myhost" ++ "\x22, and Nipype could not determine it automatically.") ∧
    ∀ cmdPath, ∃ env,
      brainExtractionRuntimeEnviron [] [] [] (some cmdPath) "myhost" = .ok env ∧
        envGet env "ANTSPATH" = some (dirname cmdPath) :=
  brainextraction_antspath [] [] [] "myhost" rfl rfl

/-- C8: the argument compiler is deterministic — compiling the special-cased
Atropos options twice from the same field values (and the same filesystem
state for the existence-checked prior images) yields the same token
sequence.  The embedding is a pure function of exactly those data, mirroring
the Python method, which reads only the input fields and the filesystem. -/
theorem atropos_compile_deterministic (inp : AtroposInputs) (fs : List String)
    (outClassifiedName : String) (opts : List AtroposOpt) :
    atroposCompile inp fs outClassifiedName opts =
      atroposCompile inp fs outClassifiedName opts := rfl

end Nipype
